import Mathlib

/-!
Shallow embedding of the SQL security validator of
`finops-cost-data-analyst/_tools/validation_tools.py`
(`check_forbidden_keywords`, `parse_sql_query`, `validate_sql_security`),
together with theorems settling the claims about it.

Strings are modelled by Lean `String` (a list of characters).  The Python
regular-expression classes `\w` and `\s`, `str.upper` and `str.strip` are
modelled on the ASCII range, which covers every character the validator's
keyword and pattern sets and the claims' inputs use.
-/

namespace ValidationTools

/-- Whitespace characters of Python's `str.strip` and the regex class `\s`
(ASCII range): space, tab, newline, carriage return, vertical tab, form feed. -/
def isSpaceChar (c : Char) : Bool :=
  c = ' ' || c = '\t' || c = '\n' || c = '\r' || c = Char.ofNat 11 || c = Char.ofNat 12

/-- Word characters of the regex class `\w` (ASCII range): letters, digits
and the underscore. -/
def isWordChar (c : Char) : Bool :=
  c.isAlphanum || c = '_'

/-- Python `str.upper` (ASCII range): map every character to upper case. -/
def upperStr (s : String) : String :=
  String.mk (s.data.map Char.toUpper)

/-- Drop leading and trailing whitespace from a character list. -/
def stripChars (l : List Char) : List Char :=
  ((l.dropWhile isSpaceChar).reverse.dropWhile isSpaceChar).reverse

/-- Python `str.strip`: remove leading and trailing whitespace. -/
def stripStr (s : String) : String :=
  String.mk (stripChars s.data)

/-- Match of `\b kw \b` at the head of `l`, where `prev` is the character
just before `l` (none at the start of the string); `kw` consists of word
characters, so the boundary conditions are that the neighbouring characters
are not word characters. -/
def wordMatchHere (kw : List Char) (prev : Option Char) (l : List Char) : Bool :=
  (match prev with
   | none => true
   | some c => !isWordChar c) &&
  kw.isPrefixOf l &&
  (match l.drop kw.length with
   | [] => true
   | c :: _ => !isWordChar c)

/-- Scan `l` for a whole-word occurrence of `kw`, carrying the previous
character for the left word boundary. -/
def containsWordAux (kw : List Char) (prev : Option Char) : List Char → Bool
  | [] => false
  | c :: rest => wordMatchHere kw prev (c :: rest) || containsWordAux kw (some c) rest

/-- Python `re.search(r"\b" + kw + r"\b", s)` for an alphabetic keyword `kw`:
`s` contains `kw` as a whole word. -/
def containsWord (kw s : String) : Bool :=
  containsWordAux kw.data none s.data

/-- Occurrence of `pat` as a contiguous sublist of `l`. -/
def containsSubAux (pat : List Char) : List Char → Bool
  | [] => pat.isPrefixOf []
  | c :: rest => pat.isPrefixOf (c :: rest) || containsSubAux pat rest

/-- Python `re.search` of a regex all of whose characters are literal:
substring occurrence of `pat` in `s`. -/
def containsSub (pat s : String) : Bool :=
  containsSubAux pat.data s.data

/-- Continuation of the regex `;\s*\w` after the semicolon: skip whitespace,
then require a word character. -/
def wordAfterSpaces : List Char → Bool
  | [] => false
  | c :: rest => if isSpaceChar c then wordAfterSpaces rest else isWordChar c

/-- Scan for a match of the regex `;\s*\w`. -/
def semiThenWordAux : List Char → Bool
  | [] => false
  | c :: rest => (c = ';' && wordAfterSpaces rest) || semiThenWordAux rest

/-- Python `re.search(r";\s*\w", s)`. -/
def hasSemiThenWord (s : String) : Bool :=
  semiThenWordAux s.data

/-- FORBIDDEN_KEYWORDS of `validation_tools.py`, in source order. -/
def FORBIDDEN_KEYWORDS : List String :=
  ["DROP", "DELETE", "INSERT", "UPDATE", "TRUNCATE",
   "CREATE", "ALTER", "GRANT", "REVOKE", "MERGE",
   "EXEC", "EXECUTE", "CALL", "DECLARE", "SET"]

/-- FORBIDDEN_PATTERNS of `validation_tools.py`: the raw regex source
strings, in source order. -/
def FORBIDDEN_PATTERNS : List String :=
  [";\\s*\\w", "--", "/\\*", "\\*/"]

/-- Python `re.search(pat, s)` for exactly the four regexes occurring in
FORBIDDEN_PATTERNS: `;\s*\w` is the semicolon/whitespace/word-character
pattern, the other three are literal substrings once the backslash escapes
are removed. -/
def regexSearch (pat : String) (s : String) : Bool :=
  if pat = ";\\s*\\w" then hasSemiThenWord s
  else if pat = "/\\*" then containsSub "/*" s
  else if pat = "\\*/" then containsSub "*/" s
  else containsSub pat s

/-- Number of occurrences of the character `c` in `s` (Python `str.count`
for a single-character argument). -/
def countChar (c : Char) (s : String) : Nat :=
  s.data.count c

/-- Python `s.endswith(";")`: the last character of `s` is a semicolon. -/
def endsWithSemi (s : String) : Bool :=
  match s.data.getLast? with
  | some c => c = ';'
  | none => false

/-- Removal of a trailing semicolon as in `parse_sql_query`: on an already
stripped string, drop the final character when it is a semicolon and strip
again. -/
def stripTrailingSemi (s : String) : String :=
  if endsWithSemi s then stripStr (String.mk s.data.dropLast) else s

/-- Python `s.startswith(pre)`. -/
def startsWith (pre s : String) : Bool :=
  pre.data.isPrefixOf s.data

/-- The apostrophe character. -/
def singleQuoteChar : Char := Char.ofNat 39

/-- The backtick character. -/
def backtickChar : Char := Char.ofNat 96

/-- Embedding of `check_forbidden_keywords`: first forbidden keyword as a
whole word of the upper-cased input, then first forbidden pattern on the
original input, then the semicolon guard. -/
def check_forbidden_keywords (sql : String) : Bool × String :=
  let sql_upper := upperStr sql
  match FORBIDDEN_KEYWORDS.find? (fun kw => containsWord kw sql_upper) with
  | some kw => (false, "Contains forbidden keyword: " ++ kw)
  | none =>
    match FORBIDDEN_PATTERNS.find? (fun pat => regexSearch pat sql) with
    | some pat => (false, "Contains forbidden pattern: " ++ pat)
    | none =>
      let semicolon_count := countChar ';' sql
      if semicolon_count > 1 then
        (false, "Multiple statements detected (multiple semicolons)")
      else if semicolon_count = 1 && !endsWithSemi (stripStr sql) then
        (false, "Semicolon found in middle of query")
      else
        (true, "")

/-- Embedding of `parse_sql_query`: strip, reject the empty string, remove a
trailing semicolon, require a SELECT/WITH prefix of the upper-cased string,
then the four balance checks.  The FROM check of the source only logs a
warning and never changes the result, so it does not appear. -/
def parse_sql_query (sql : String) : Bool × String :=
  let sql_clean := stripStr sql
  if sql_clean = "" then (false, "Empty query")
  else
    let sql_clean := stripTrailingSemi sql_clean
    let sql_upper := upperStr sql_clean
    if !(startsWith "SELECT" sql_upper || startsWith "WITH" sql_upper) then
      (false, "Query must start with SELECT or WITH")
    else if countChar '(' sql_clean ≠ countChar ')' sql_clean then
      (false, "Unbalanced parentheses")
    else if countChar singleQuoteChar sql_clean % 2 ≠ 0 then
      (false, "Unbalanced single quotes")
    else if countChar '\"' sql_clean % 2 ≠ 0 then
      (false, "Unbalanced double quotes")
    else if countChar backtickChar sql_clean % 2 ≠ 0 then
      (false, "Unbalanced backticks")
    else
      (true, "")

/-- Embedding of `validate_sql_security`: `check_forbidden_keywords`, then
`parse_sql_query`, returning the first failure, and `(true, "VALID")` when
both pass. -/
def validate_sql_security (sql : String) : Bool × String :=
  let r1 := check_forbidden_keywords sql
  if !r1.fst then (false, r1.snd)
  else
    let r2 := parse_sql_query sql
    if !r2.fst then (false, r2.snd)
    else (true, "VALID")

/-- Helper: when the keyword scan finds a first match, `validate_sql_security`
reports that keyword. -/
theorem validate_of_keyword_found {s kw : String}
    (h : FORBIDDEN_KEYWORDS.find? (fun k => containsWord k (upperStr s)) = some kw) :
    validate_sql_security s = (false, "Contains forbidden keyword: " ++ kw) := by
  simp only [validate_sql_security, check_forbidden_keywords, h]
  rfl

/-- Helper: when no keyword matches but a forbidden pattern does,
`validate_sql_security` reports the first matching pattern. -/
theorem validate_of_pattern_found {s p : String}
    (hk : FORBIDDEN_KEYWORDS.find? (fun k => containsWord k (upperStr s)) = none)
    (hp : FORBIDDEN_PATTERNS.find? (fun pat => regexSearch pat s) = some p) :
    validate_sql_security s = (false, "Contains forbidden pattern: " ++ p) := by
  simp only [validate_sql_security, check_forbidden_keywords, hk, hp]
  rfl

/-- C1: an input containing any forbidden keyword as a whole word of its
upper-cased form is rejected with reason naming the first matching keyword
in list order, and the whole-word requirement means
"SELECT * FROM inserted_events" is safe. -/
theorem claim_C1 :
    (∀ s k, k ∈ FORBIDDEN_KEYWORDS → containsWord k (upperStr s) = true →
      ∃ kw, FORBIDDEN_KEYWORDS.find? (fun x => containsWord x (upperStr s)) = some kw ∧
        validate_sql_security s = (false, "Contains forbidden keyword: " ++ kw)) ∧
    validate_sql_security "SELECT * FROM inserted_events" = (true, "VALID") := by
  constructor
  · intro s k hk hmatch
    have hsome : (FORBIDDEN_KEYWORDS.find? (fun x => containsWord x (upperStr s))).isSome := by
      rw [List.find?_isSome]
      exact ⟨k, hk, hmatch⟩
    rcases Option.isSome_iff_exists.mp hsome with ⟨kw, hkw⟩
    exact ⟨kw, hkw, validate_of_keyword_found hkw⟩
  · decide

/-- Witness for C1 at the concrete input "DROP TABLE users". -/
theorem claim_C1_witness :
    ∃ kw, FORBIDDEN_KEYWORDS.find?
        (fun x => containsWord x (upperStr "DROP TABLE users")) = some kw ∧
      validate_sql_security "DROP TABLE users" =
        (false, "Contains forbidden keyword: " ++ kw) :=
  claim_C1.1 "DROP TABLE users" "DROP" (by decide) (by decide)

/-- C2: an input with no forbidden keyword on which some forbidden pattern
matches is rejected with reason naming the first matching pattern in list
order; in particular "SELECT 1 -- comment" and "SELECT /* x */ 1" are
rejected with the line-comment and block-comment-opener patterns. -/
theorem claim_C2 :
    (∀ s p, FORBIDDEN_KEYWORDS.find? (fun k => containsWord k (upperStr s)) = none →
      FORBIDDEN_PATTERNS.find? (fun pat => regexSearch pat s) = some p →
      validate_sql_security s = (false, "Contains forbidden pattern: " ++ p)) ∧
    validate_sql_security "SELECT 1 -- comment" =
      (false, "Contains forbidden pattern: --") ∧
    validate_sql_security "SELECT /* x */ 1" =
      (false, "Contains forbidden pattern: /\\*") := by
  refine ⟨fun s p hk hp => validate_of_pattern_found hk hp, by decide, by decide⟩

/-- Witness for C2 at the concrete input "x; y". -/
theorem claim_C2_witness :
    validate_sql_security "x; y" = (false, "Contains forbidden pattern: ;\\s*\\w") :=
  claim_C2.1 "x; y" ";\\s*\\w" (by decide) (by decide)

/-- C3, counterexample: on the claim's own concrete input all checks pass
but the reason component is the string "VALID", not the empty string. -/
theorem claim_C3_counterexample :
    validate_sql_security
        "SELECT SUM(cost) FROM t WHERE date BETWEEN \x272025-02-01\x27 AND \x272026-01-31\x27" =
      (true, "VALID") ∧
    ("VALID" : String) ≠ "" := by decide

/-- C3, amended: whenever all checks pass the verdict is safe with reason
"VALID" (not the empty string); in particular on the claim's concrete
input. -/
theorem claim_C3_amended :
    (∀ s, (validate_sql_security s).fst = true →
      validate_sql_security s = (true, "VALID")) ∧
    validate_sql_security
        "SELECT SUM(cost) FROM t WHERE date BETWEEN \x272025-02-01\x27 AND \x272026-01-31\x27" =
      (true, "VALID") := by
  constructor
  · intro s h
    rcases hck : check_forbidden_keywords s with ⟨b1, r1⟩
    rcases hpq : parse_sql_query s with ⟨b2, r2⟩
    simp only [validate_sql_security, hck, hpq] at h ⊢
    cases b1 <;> cases b2 <;> simp_all
  · decide

/-- Witness for the amended C3 at the concrete input "SELECT 1". -/
theorem claim_C3_amended_witness :
    validate_sql_security "SELECT 1" = (true, "VALID") :=
  claim_C3_amended.1 "SELECT 1" (by decide)

/-- C4, counterexample: the single-character input ";" passes the earlier
checks and becomes empty only after the trailing semicolon is stripped, and
the code then reports the prefix error, not "Empty query". -/
theorem claim_C4_counterexample :
    validate_sql_security ";" = (false, "Query must start with SELECT or WITH") ∧
    ("Query must start with SELECT or WITH" : String) ≠ "Empty query" := by decide

/-- C4, amended: emptiness is checked on the trimmed string before the
trailing semicolon is stripped, so inputs that trim to empty (such as ""
and "   ") yield "Empty query", while ";" survives the emptiness check,
becomes empty after semicolon stripping, and fails the prefix check
instead. -/
theorem claim_C4_amended :
    (∀ s, check_forbidden_keywords s = (true, "") → stripStr s = "" →
      validate_sql_security s = (false, "Empty query")) ∧
    validate_sql_security "" = (false, "Empty query") ∧
    validate_sql_security "   " = (false, "Empty query") ∧
    validate_sql_security ";" = (false, "Query must start with SELECT or WITH") := by
  refine ⟨?_, by decide, by decide, by decide⟩
  intro s h1 h2
  have hp : parse_sql_query s = (false, "Empty query") := by
    simp only [parse_sql_query, h2]
    rfl
  simp only [validate_sql_security, h1, hp]
  rfl

/-- Witness for the amended C4 at the concrete input " " (one space). -/
theorem claim_C4_amended_witness :
    validate_sql_security " " = (false, "Empty query") :=
  claim_C4_amended.1 " " (by decide) (by decide)

/-- Prefix test the claim C5 describes: the keyword is a prefix and the
following character, if any, is not a word character.  Stated from the
claim's words, for comparison with the code's plain `startswith`. -/
def startsWithToken (tok s : String) : Bool :=
  tok.data.isPrefixOf s.data &&
  (match s.data.drop tok.data.length with
   | [] => true
   | c :: _ => !isWordChar c)

/-- C5, counterexample: "SELECTION FROM t" does not begin with SELECT or
WITH as a complete token, yet the code accepts it, because the source uses
a plain `startswith` prefix test. -/
theorem claim_C5_counterexample :
    startsWithToken "SELECT"
        (upperStr (stripTrailingSemi (stripStr "SELECTION FROM t"))) = false ∧
    startsWithToken "WITH"
        (upperStr (stripTrailingSemi (stripStr "SELECTION FROM t"))) = false ∧
    validate_sql_security "SELECTION FROM t" = (true, "VALID") := by decide

/-- C5, amended: the prefix requirement is a plain case-insensitive string
prefix (`startswith`), not a token-boundary test, so a longer identifier
such as "SELECTION" does qualify; inputs whose cleaned upper-case form has
neither prefix are rejected with "Query must start with SELECT or WITH",
and "  select 1" is safe. -/
theorem claim_C5_amended :
    (∀ s, check_forbidden_keywords s = (true, "") → stripStr s ≠ "" →
      startsWith "SELECT" (upperStr (stripTrailingSemi (stripStr s))) = false →
      startsWith "WITH" (upperStr (stripTrailingSemi (stripStr s))) = false →
      validate_sql_security s = (false, "Query must start with SELECT or WITH")) ∧
    validate_sql_security "  select 1" = (true, "VALID") := by
  refine ⟨?_, by decide⟩
  intro s h1 h2 h3 h4
  have hp : parse_sql_query s = (false, "Query must start with SELECT or WITH") := by
    simp only [parse_sql_query]
    rw [if_neg h2]
    simp only [h3, h4]
    rfl
  simp only [validate_sql_security, h1, hp]
  rfl

/-- Witness for the amended C5 at the concrete input "1". -/
theorem claim_C5_amended_witness :
    validate_sql_security "1" = (false, "Query must start with SELECT or WITH") :=
  claim_C5_amended.1 "1" (by decide) (by decide) (by decide) (by decide)

/-- C6, counterexample: on "x;;" (two semicolons, no keyword or pattern
match) the code's reason is "Multiple statements detected (multiple
semicolons)", not the claim's "Multiple statements detected". -/
theorem claim_C6_counterexample :
    validate_sql_security "x;;" =
      (false, "Multiple statements detected (multiple semicolons)") ∧
    ("Multiple statements detected (multiple semicolons)" : String) ≠
      "Multiple statements detected" := by decide

/-- C6, amended: with no keyword or pattern match, more than one semicolon
yields reason "Multiple statements detected (multiple semicolons)" (the
claim's string extended by the parenthetical), exactly one non-trailing
semicolon yields "Semicolon found in middle of query", and a single
trailing semicolon passes, so "SELECT 1;" is safe. -/
theorem claim_C6_amended :
    (∀ s, FORBIDDEN_KEYWORDS.find? (fun k => containsWord k (upperStr s)) = none →
      FORBIDDEN_PATTERNS.find? (fun pat => regexSearch pat s) = none →
      (countChar ';' s > 1 →
        validate_sql_security s =
          (false, "Multiple statements detected (multiple semicolons)")) ∧
      (countChar ';' s = 1 → endsWithSemi (stripStr s) = false →
        validate_sql_security s = (false, "Semicolon found in middle of query"))) ∧
    validate_sql_security "SELECT 1;" = (true, "VALID") := by
  refine ⟨?_, by decide⟩
  intro s hk hp
  constructor
  · intro hc
    have h1 : check_forbidden_keywords s =
        (false, "Multiple statements detected (multiple semicolons)") := by
      simp only [check_forbidden_keywords, hk, hp]
      rw [if_pos hc]
    simp only [validate_sql_security, h1]
    rfl
  · intro hc he
    have h1 : check_forbidden_keywords s =
        (false, "Semicolon found in middle of query") := by
      simp only [check_forbidden_keywords, hk, hp, hc, he]
      rfl
    simp only [validate_sql_security, h1]
    rfl

/-- Witness for the amended C6 at the concrete input ";;". -/
theorem claim_C6_amended_witness :
    validate_sql_security ";;" =
      (false, "Multiple statements detected (multiple semicolons)") :=
  (claim_C6_amended.1 ";;" (by decide) (by decide)).1 (by decide)

/-- Helper: on an input that passes `check_forbidden_keywords`, is not
empty after trimming, and has a SELECT/WITH prefix, `parse_sql_query`
reduces to the four balance checks over the cleaned string. -/
theorem parse_reduces_to_balance {s : String} (h2 : stripStr s ≠ "")
    (h3 : (startsWith "SELECT" (upperStr (stripTrailingSemi (stripStr s))) ||
           startsWith "WITH" (upperStr (stripTrailingSemi (stripStr s)))) = true) :
    parse_sql_query s =
      (if countChar '(' (stripTrailingSemi (stripStr s)) ≠
          countChar ')' (stripTrailingSemi (stripStr s)) then
        (false, "Unbalanced parentheses")
      else if countChar singleQuoteChar (stripTrailingSemi (stripStr s)) % 2 ≠ 0 then
        (false, "Unbalanced single quotes")
      else if countChar '\"' (stripTrailingSemi (stripStr s)) % 2 ≠ 0 then
        (false, "Unbalanced double quotes")
      else if countChar backtickChar (stripTrailingSemi (stripStr s)) % 2 ≠ 0 then
        (false, "Unbalanced backticks")
      else (true, "")) := by
  simp only [parse_sql_query]
  rw [if_neg h2]
  simp only [h3, Bool.not_true]
  rfl

/-- C7: for an input reaching the structural stage with a valid prefix, the
balance checks run in the order parentheses, single quotes, double quotes,
backticks, each over the string with trailing semicolon stripped and
trimmed, with the corresponding reason on first failure. -/
theorem claim_C7 :
    ∀ s, check_forbidden_keywords s = (true, "") → stripStr s ≠ "" →
      (startsWith "SELECT" (upperStr (stripTrailingSemi (stripStr s))) ||
       startsWith "WITH" (upperStr (stripTrailingSemi (stripStr s)))) = true →
      (countChar '(' (stripTrailingSemi (stripStr s)) ≠
         countChar ')' (stripTrailingSemi (stripStr s)) →
        validate_sql_security s = (false, "Unbalanced parentheses")) ∧
      (countChar '(' (stripTrailingSemi (stripStr s)) =
         countChar ')' (stripTrailingSemi (stripStr s)) →
       countChar singleQuoteChar (stripTrailingSemi (stripStr s)) % 2 ≠ 0 →
        validate_sql_security s = (false, "Unbalanced single quotes")) ∧
      (countChar '(' (stripTrailingSemi (stripStr s)) =
         countChar ')' (stripTrailingSemi (stripStr s)) →
       countChar singleQuoteChar (stripTrailingSemi (stripStr s)) % 2 = 0 →
       countChar '\"' (stripTrailingSemi (stripStr s)) % 2 ≠ 0 →
        validate_sql_security s = (false, "Unbalanced double quotes")) ∧
      (countChar '(' (stripTrailingSemi (stripStr s)) =
         countChar ')' (stripTrailingSemi (stripStr s)) →
       countChar singleQuoteChar (stripTrailingSemi (stripStr s)) % 2 = 0 →
       countChar '\"' (stripTrailingSemi (stripStr s)) % 2 = 0 →
       countChar backtickChar (stripTrailingSemi (stripStr s)) % 2 ≠ 0 →
        validate_sql_security s = (false, "Unbalanced backticks")) := by
  intro s h1 h2 h3
  refine ⟨?_, ?_, ?_, ?_⟩
  · intro hc
    have hp : parse_sql_query s = (false, "Unbalanced parentheses") := by
      rw [parse_reduces_to_balance h2 h3, if_pos hc]
    simp only [validate_sql_security, h1, hp]
    rfl
  · intro hceq hq
    have hp : parse_sql_query s = (false, "Unbalanced single quotes") := by
      rw [parse_reduces_to_balance h2 h3, if_neg (fun h => h hceq), if_pos hq]
    simp only [validate_sql_security, h1, hp]
    rfl
  · intro hceq hq hd
    have hp : parse_sql_query s = (false, "Unbalanced double quotes") := by
      rw [parse_reduces_to_balance h2 h3, if_neg (fun h => h hceq),
        if_neg (fun h => h hq), if_pos hd]
    simp only [validate_sql_security, h1, hp]
    rfl
  · intro hceq hq hd hb
    have hp : parse_sql_query s = (false, "Unbalanced backticks") := by
      rw [parse_reduces_to_balance h2 h3, if_neg (fun h => h hceq),
        if_neg (fun h => h hq), if_neg (fun h => h hd), if_pos hb]
    simp only [validate_sql_security, h1, hp]
    rfl

/-- Witness for C7 at the concrete input "SELECT (1". -/
theorem claim_C7_witness :
    validate_sql_security "SELECT (1" = (false, "Unbalanced parentheses") :=
  (claim_C7 "SELECT (1" (by decide) (by decide) (by decide)).1 (by decide)

/-- The validator as the spec describes it: four ordered, short-circuiting
checks (keyword denylist, forbidden patterns, semicolon guard, structural
parse), the first failure determining the reason.  Spec-side definition for
the refinement claim C8, to be compared with `validate_sql_security`. -/
def spec_ordered_checks (sql : String) : Bool × String :=
  match FORBIDDEN_KEYWORDS.find? (fun kw => containsWord kw (upperStr sql)) with
  | some kw => (false, "Contains forbidden keyword: " ++ kw)
  | none =>
    match FORBIDDEN_PATTERNS.find? (fun pat => regexSearch pat sql) with
    | some pat => (false, "Contains forbidden pattern: " ++ pat)
    | none =>
      if countChar ';' sql > 1 then
        (false, "Multiple statements detected (multiple semicolons)")
      else if countChar ';' sql = 1 && !endsWithSemi (stripStr sql) then
        (false, "Semicolon found in middle of query")
      else
        match parse_sql_query sql with
        | (false, r) => (false, r)
        | (true, _) => (true, "VALID")

/-- Helper: once `check_forbidden_keywords` passes, the verdict is that of
the structural parse, with success rendered as "VALID". -/
theorem validate_eq_parse_branch {s : String}
    (h1 : check_forbidden_keywords s = (true, "")) :
    validate_sql_security s =
      (match parse_sql_query s with
       | (false, r) => (false, r)
       | (true, _) => (true, "VALID")) := by
  rcases hpq : parse_sql_query s with ⟨b2, r2⟩
  cases b2 <;> simp only [validate_sql_security, h1, hpq] <;> rfl

/-- C8: the implementation equals the spec's first-failing-check semantics
on every input, so checks run in the fixed order keyword, pattern,
semicolon guard, structural parse and exactly one reason is reported; on
the concrete input "DELETE FROM t WHERE (x = 1", which contains both a
forbidden keyword and unbalanced parentheses, the keyword reason wins. -/
theorem claim_C8 :
    (∀ s, validate_sql_security s = spec_ordered_checks s) ∧
    validate_sql_security "DELETE FROM t WHERE (x = 1" =
      (false, "Contains forbidden keyword: DELETE") := by
  refine ⟨?_, by decide⟩
  intro s
  cases hk : FORBIDDEN_KEYWORDS.find? (fun k => containsWord k (upperStr s)) with
  | some kw =>
    have h1 : check_forbidden_keywords s =
        (false, "Contains forbidden keyword: " ++ kw) := by
      simp only [check_forbidden_keywords, hk]
    have h2 : spec_ordered_checks s =
        (false, "Contains forbidden keyword: " ++ kw) := by
      simp only [spec_ordered_checks, hk]
    rw [h2]
    simp only [validate_sql_security, h1]
    rfl
  | none =>
    cases hp : FORBIDDEN_PATTERNS.find? (fun pat => regexSearch pat s) with
    | some pat =>
      have h1 : check_forbidden_keywords s =
          (false, "Contains forbidden pattern: " ++ pat) := by
        simp only [check_forbidden_keywords, hk, hp]
      have h2 : spec_ordered_checks s =
          (false, "Contains forbidden pattern: " ++ pat) := by
        simp only [spec_ordered_checks, hk, hp]
      rw [h2]
      simp only [validate_sql_security, h1]
      rfl
    | none =>
      by_cases hgt : countChar ';' s > 1
      · have h1 : check_forbidden_keywords s =
            (false, "Multiple statements detected (multiple semicolons)") := by
          simp only [check_forbidden_keywords, hk, hp]
          rw [if_pos hgt]
        have h2 : spec_ordered_checks s =
            (false, "Multiple statements detected (multiple semicolons)") := by
          simp only [spec_ordered_checks, hk, hp]
          rw [if_pos hgt]
        rw [h2]
        simp only [validate_sql_security, h1]
        rfl
      · by_cases hc1 : countChar ';' s = 1
        · cases he : endsWithSemi (stripStr s) with
          | false =>
            have h1 : check_forbidden_keywords s =
                (false, "Semicolon found in middle of query") := by
              simp only [check_forbidden_keywords, hk, hp, hc1, he]
              rfl
            have h2 : spec_ordered_checks s =
                (false, "Semicolon found in middle of query") := by
              simp only [spec_ordered_checks, hk, hp, hc1, he]
              rfl
            rw [h2]
            simp only [validate_sql_security, h1]
            rfl
          | true =>
            have h1 : check_forbidden_keywords s = (true, "") := by
              simp only [check_forbidden_keywords, hk, hp, hc1, he]
              rfl
            have h2 : spec_ordered_checks s =
                (match parse_sql_query s with
                 | (false, r) => (false, r)
                 | (true, _) => (true, "VALID")) := by
              simp only [spec_ordered_checks, hk, hp, hc1, he]
              rfl
            rw [h2, validate_eq_parse_branch h1]
        · have hc0 : countChar ';' s = 0 := by omega
          have h1 : check_forbidden_keywords s = (true, "") := by
            simp only [check_forbidden_keywords, hk, hp, hc0]
            rfl
          have h2 : spec_ordered_checks s =
              (match parse_sql_query s with
               | (false, r) => (false, r)
               | (true, _) => (true, "VALID")) := by
            simp only [spec_ordered_checks, hk, hp, hc0]
            rfl
          rw [h2, validate_eq_parse_branch h1]

/-- Helper: `String.data` distributes over append. -/
theorem data_append (a b : String) : (a ++ b).data = a.data ++ b.data := by
  cases a
  cases b
  rfl

/-- Helper: appending to a non-empty string never gives the empty string. -/
theorem append_ne_empty {a : String} (b : String) (h : a.data ≠ []) :
    a ++ b ≠ "" := by
  intro contra
  have hd : a.data ++ b.data = [] := by
    rw [← data_append, contra]
  exact h (List.append_eq_nil.mp hd).1

/-- Helper: `check_forbidden_keywords` either passes with an empty message
or fails with a non-empty reason. -/
theorem check_forbidden_keywords_cases (s : String) :
    check_forbidden_keywords s = (true, "") ∨
    ((check_forbidden_keywords s).fst = false ∧
     (check_forbidden_keywords s).snd ≠ "") := by
  cases hk : FORBIDDEN_KEYWORDS.find? (fun k => containsWord k (upperStr s)) with
  | some kw =>
    right
    have h1 : check_forbidden_keywords s =
        (false, "Contains forbidden keyword: " ++ kw) := by
      simp only [check_forbidden_keywords, hk]
    rw [h1]
    exact ⟨rfl, append_ne_empty kw (by decide)⟩
  | none =>
    cases hp : FORBIDDEN_PATTERNS.find? (fun pat => regexSearch pat s) with
    | some pat =>
      right
      have h1 : check_forbidden_keywords s =
          (false, "Contains forbidden pattern: " ++ pat) := by
        simp only [check_forbidden_keywords, hk, hp]
      rw [h1]
      exact ⟨rfl, append_ne_empty pat (by decide)⟩
    | none =>
      by_cases hgt : countChar ';' s > 1
      · right
        have h1 : check_forbidden_keywords s =
            (false, "Multiple statements detected (multiple semicolons)") := by
          simp only [check_forbidden_keywords, hk, hp]
          rw [if_pos hgt]
        rw [h1]
        exact ⟨rfl, by decide⟩
      · by_cases hc1 : countChar ';' s = 1
        · cases he : endsWithSemi (stripStr s) with
          | false =>
            right
            have h1 : check_forbidden_keywords s =
                (false, "Semicolon found in middle of query") := by
              simp only [check_forbidden_keywords, hk, hp, hc1, he]
              rfl
            rw [h1]
            exact ⟨rfl, by decide⟩
          | true =>
            left
            simp only [check_forbidden_keywords, hk, hp, hc1, he]
            rfl
        · left
          have hc0 : countChar ';' s = 0 := by omega
          simp only [check_forbidden_keywords, hk, hp, hc0]
          rfl

/-- Helper: `parse_sql_query` either passes with an empty message or fails
with a non-empty reason. -/
theorem parse_sql_query_cases (s : String) :
    parse_sql_query s = (true, "") ∨
    ((parse_sql_query s).fst = false ∧ (parse_sql_query s).snd ≠ "") := by
  dsimp only [parse_sql_query]
  split
  · exact Or.inr ⟨rfl, by decide⟩
  · split
    · exact Or.inr ⟨rfl, by decide⟩
    · split
      · exact Or.inr ⟨rfl, by decide⟩
      · split
        · exact Or.inr ⟨rfl, by decide⟩
        · split
          · exact Or.inr ⟨rfl, by decide⟩
          · split
            · exact Or.inr ⟨rfl, by decide⟩
            · exact Or.inl rfl

/-- C9: the validator is a total function of the input string; every input
yields a verdict, and an unsafe verdict always carries a non-empty reason
(safe verdicts carry the string "VALID"). -/
theorem claim_C9 :
    ∀ s, validate_sql_security s = (true, "VALID") ∨
      ((validate_sql_security s).fst = false ∧
       (validate_sql_security s).snd ≠ "") := by
  intro s
  rcases check_forbidden_keywords_cases s with h1 | ⟨h1f, h1r⟩
  · rcases parse_sql_query_cases s with h2 | ⟨h2f, h2r⟩
    · left
      simp only [validate_sql_security, h1, h2]
      rfl
    · right
      rcases hpq : parse_sql_query s with ⟨b2, r2⟩
      rw [hpq] at h2f h2r
      have hb : b2 = false := h2f
      subst hb
      have hv : validate_sql_security s = (false, r2) := by
        simp only [validate_sql_security, h1, hpq]
        rfl
      rw [hv]
      exact ⟨rfl, h2r⟩
  · right
    rcases hck : check_forbidden_keywords s with ⟨b1, r1⟩
    rw [hck] at h1f h1r
    have hb : b1 = false := h1f
    subst hb
    have hv : validate_sql_security s = (false, r1) := by
      simp only [validate_sql_security, hck]
      rfl
    rw [hv]
    exact ⟨rfl, h1r⟩

/-- C10: `parse_sql_query` performs none of the keyword, comment-pattern or
semicolon checks: on "SELECT 1 -- DROP TABLE t", which contains both a
forbidden keyword and a line-comment opener, it returns (true, ""), while
`validate_sql_security` rejects the same input, so the structural parser
alone is not a safety gate. -/
theorem claim_C10 :
    parse_sql_query "SELECT 1 -- DROP TABLE t" = (true, "") ∧
    validate_sql_security "SELECT 1 -- DROP TABLE t" =
      (false, "Contains forbidden keyword: DROP") := by decide

end ValidationTools
